import Mathlib

/-!
Shallow embedding of `tuner/tuner/common.py` from the shark-ai tuner:
the data model of a GPU kernel auto-tuner (problem shapes, MFMA intrinsic
descriptors, pipeline-option rendering) together with proofs of the
specified properties.

Python `int` is modelled as `Int`; MLIR element-type handles are modelled
as the inductive `IRType` covering every type the module constructs, with
the exact string rendering MLIR produces for each.
-/

namespace Tuner

/-- The MLIR element types constructed in `common.py` (`CommonTypes`,
the intrinsic constructors).  Equality of the Python IR handles is
structural equality of the type, so `DecidableEq` models `==`/`!=`. -/
inductive IRType where
  | i1
  | i8
  | i16
  | i32
  | f8E4M3FNUZ
  | f8E5M2FNUZ
  | f16
  | f32
  | bf16
  deriving DecidableEq, Repr

/-- `str(t)` for an MLIR type handle: the MLIR textual spelling. -/
def IRType.render : IRType → String
  | .i1 => "i1"
  | .i8 => "i8"
  | .i16 => "i16"
  | .i32 => "i32"
  | .f8E4M3FNUZ => "f8E4M3FNUZ"
  | .f8E5M2FNUZ => "f8E5M2FNUZ"
  | .f16 => "f16"
  | .f32 => "f32"
  | .bf16 => "bf16"

/-- `t.width` for an MLIR integer/float type handle. -/
def IRType.width : IRType → Int
  | .i1 => 1
  | .i8 => 8
  | .i16 => 16
  | .i32 => 32
  | .f8E4M3FNUZ => 8
  | .f8E5M2FNUZ => 8
  | .f16 => 16
  | .f32 => 32
  | .bf16 => 16

/-- Opaque model of an `ir.Context` handle.  A Python variable typed
`ir.Context` can also hold `None` (the only falsy value of that type),
which is modelled by wrapping in `Option` at use sites. -/
structure IRContext where
  id : Nat
  deriving DecidableEq, Repr

/-- Opaque model of a `logging.Logger` handle. -/
structure Logger where
  name : String
  deriving DecidableEq, Repr

/-- `CommonTypes`: named fields for the compiler primitive types. -/
structure CommonTypes where
  i1 : IRType
  i8 : IRType
  i16 : IRType
  i32 : IRType
  f8E4M3FNUZ : IRType
  f8E5M2FNUZ : IRType
  f16 : IRType
  f32 : IRType
  bf16 : IRType
  deriving DecidableEq, Repr

/-- `CommonTypes.__init__`: `assert ctx` fails (an `AssertionError`,
modelled as `Except.error`) when the context is `None`; otherwise every
field is populated from the context. -/
def CommonTypes.make (ctx : Option IRContext) : Except String CommonTypes :=
  match ctx with
  | none => Except.error "AssertionError"
  | some _ =>
      Except.ok
        { i1 := .i1, i8 := .i8, i16 := .i16, i32 := .i32,
          f8E4M3FNUZ := .f8E4M3FNUZ, f8E5M2FNUZ := .f8E5M2FNUZ,
          f16 := .f16, f32 := .f32, bf16 := .bf16 }

/-- `TunerContext`: carries the compiler context, a logger and the
`CommonTypes` it constructs. -/
structure TunerContext where
  mlir_ctx : Option IRContext
  logger : Logger
  type : CommonTypes
  deriving DecidableEq, Repr

/-- `TunerContext.__init__`: stores its arguments and constructs a
`CommonTypes` from the context, propagating the assertion failure. -/
def TunerContext.make (mlir_ctx : Option IRContext) (logger : Logger) :
    Except String TunerContext :=
  match CommonTypes.make mlir_ctx with
  | Except.error e => Except.error e
  | Except.ok t => Except.ok { mlir_ctx := mlir_ctx, logger := logger, type := t }

/-- `DispatchKind` enum. -/
inductive DispatchKind where
  | conv
  | mmt
  | contraction
  | batch_mmt
  | batch_matmul
  | broadcast_rhs_mmt
  deriving DecidableEq, Repr

/-- `ShapedType` dataclass: shape (with `-1` marking a dynamic dim) and
element type. -/
structure ShapedType where
  shape : List Int
  element_type : IRType
  deriving DecidableEq, Repr

/-- `ShapedType.rank`. -/
def ShapedType.rank (self : ShapedType) : Nat :=
  self.shape.length

/-- `ShapedType.bitwidth`. -/
def ShapedType.bitwidth (self : ShapedType) : Int :=
  self.element_type.width

/-- The local `dim_to_str` lambda of `ShapedType.__str__`. -/
def dim_to_str (dim : Int) : String :=
  if dim ≠ -1 then toString dim else "?"

/-- `ShapedType.__str__`: dims joined by `x` (dynamic dims printed `?`),
then `x` and the element type. -/
def ShapedType.render (self : ShapedType) : String :=
  String.intercalate "x" (self.shape.map dim_to_str) ++ "x" ++ self.element_type.render

/-- `MatmulSize` dataclass. -/
structure MatmulSize where
  M : Int
  N : Int
  K : Int
  B : Int := 1
  deriving DecidableEq, Repr

/-- `ProblemSize` dataclass. -/
structure ProblemSize where
  matmul_size : MatmulSize
  lhs_type : ShapedType
  rhs_type : ShapedType
  res_type : ShapedType
  dispatch_kind : DispatchKind
  deriving DecidableEq, Repr

/-- `ProblemSize.MNK`. -/
def ProblemSize.MNK (self : ProblemSize) : Int × Int × Int :=
  (self.matmul_size.M, self.matmul_size.N, self.matmul_size.K)

/-- `MfmaIntrinsic` dataclass. -/
structure MfmaIntrinsic where
  output_type : IRType
  m : Int
  n : Int
  k : Int
  input_type : IRType
  deriving DecidableEq, Repr

/-- Python `str.upper()` on the ASCII spellings used here: upper-case
every character. -/
def pyUpper (s : String) : String :=
  String.mk (s.data.map Char.toUpper)

/-- `MfmaIntrinsic.__str__`: `MFMA_<OUT>_<m>x<n>x<k>_<IN>` with the type
spellings upper-cased. -/
def MfmaIntrinsic.render (self : MfmaIntrinsic) : String :=
  let input := pyUpper self.input_type.render
  let output := pyUpper self.output_type.render
  "MFMA_" ++ output ++ "_" ++ toString self.m ++ "x" ++ toString self.n ++ "x"
    ++ toString self.k ++ "_" ++ input

/-- `MfmaIntrinsic.mfma_f32_16x16x16_f16`. -/
def MfmaIntrinsic.mfma_f32_16x16x16_f16 : MfmaIntrinsic :=
  { output_type := .f32, m := 16, n := 16, k := 16, input_type := .f16 }

/-- `MfmaIntrinsic.mfma_f32_32x32x8_f16`. -/
def MfmaIntrinsic.mfma_f32_32x32x8_f16 : MfmaIntrinsic :=
  { output_type := .f32, m := 32, n := 32, k := 8, input_type := .f16 }

/-- `MfmaIntrinsic.mfma_i32_16x16x32_i8`. -/
def MfmaIntrinsic.mfma_i32_16x16x32_i8 : MfmaIntrinsic :=
  { output_type := .i32, m := 16, n := 16, k := 32, input_type := .i8 }

/-- `MfmaIntrinsic.mfma_i32_32x32x16_i8`. -/
def MfmaIntrinsic.mfma_i32_32x32x16_i8 : MfmaIntrinsic :=
  { output_type := .i32, m := 32, n := 32, k := 16, input_type := .i8 }

/-- `MfmaIntrinsic.all`: the fixed four-intrinsic catalog, in declaration
order. -/
def MfmaIntrinsic.all : List MfmaIntrinsic :=
  [ MfmaIntrinsic.mfma_f32_16x16x16_f16,
    MfmaIntrinsic.mfma_f32_32x32x8_f16,
    MfmaIntrinsic.mfma_i32_16x16x32_i8,
    MfmaIntrinsic.mfma_i32_32x32x16_i8 ]

/-- The inner `is_compatible` of `get_compatible_mfma_intrinsics`,
mirroring its early-return chain. -/
def is_compatible (problem_size : ProblemSize) (intrinsic : MfmaIntrinsic) : Bool :=
  if problem_size.res_type.element_type ≠ intrinsic.output_type then false
  else if problem_size.dispatch_kind ≠ DispatchKind.batch_matmul then
    if problem_size.lhs_type.element_type ≠ intrinsic.input_type then false
    else if problem_size.rhs_type.element_type ≠ intrinsic.input_type then false
    else true
  else true

/-- `get_compatible_mfma_intrinsics`: filters the catalog by
`is_compatible`. -/
def get_compatible_mfma_intrinsics (problem_size : ProblemSize) : List MfmaIntrinsic :=
  MfmaIntrinsic.all.filter (is_compatible problem_size)

/-- `ReorderWorkgroupsStrategy` enum. -/
inductive ReorderWorkgroupsStrategy where
  | NONE
  | SWIZZLE
  | TRANSPOSE
  deriving DecidableEq, Repr

/-- `ReorderWorkgroupsStrategy.__str__` = `self.name.title()`. -/
def ReorderWorkgroupsStrategy.render : ReorderWorkgroupsStrategy → String
  | .NONE => "None"
  | .SWIZZLE => "Swizzle"
  | .TRANSPOSE => "Transpose"

/-- `str(b).lower()` for a Python bool. -/
def pyBoolLower (b : Bool) : String :=
  if b then "true" else "false"

/-- `GpuPipelineOptions` dataclass: three optional fields defaulting to
`None`. -/
structure GpuPipelineOptions where
  prefetch_shared_memory : Option Bool := none
  no_reduce_shared_memory_bank_conflicts : Option Bool := none
  reorder_workgroups_strategy : Option ReorderWorkgroupsStrategy := none
  deriving DecidableEq, Repr

/-- `GpuPipelineOptions.all_default`: `all(x is None for x in astuple(self))`. -/
def GpuPipelineOptions.all_default (self : GpuPipelineOptions) : Bool :=
  self.prefetch_shared_memory.isNone
    && self.no_reduce_shared_memory_bank_conflicts.isNone
    && self.reorder_workgroups_strategy.isNone

/-- `GpuPipelineOptions.__str__`: accumulates a clause per set field, in
declaration order, and joins with a comma-space inside the attribute
marker. -/
def GpuPipelineOptions.render (self : GpuPipelineOptions) : String :=
  let options : List String := []
  let options := match self.prefetch_shared_memory with
    | some b => options ++ ["prefetch_shared_memory = " ++ pyBoolLower b]
    | none => options
  let options := match self.no_reduce_shared_memory_bank_conflicts with
    | some b => options ++ ["no_reduce_shared_memory_bank_conflicts = " ++ pyBoolLower b]
    | none => options
  let options := match self.reorder_workgroups_strategy with
    | some s => options ++ ["reorder_workgroups_strategy = " ++ s.render]
    | none => options
  "#iree_gpu.pipeline_options<" ++ String.intercalate ", " options ++ ">"

/-- `Configuration` dataclass. -/
structure Configuration where
  subgroup_size : Int
  workgroup_size : List Int
  intrinsic : MfmaIntrinsic
  tile_sizes : List Int
  subgroup_m_count : Int
  subgroup_n_count : Int
  gpu_pipeline_options : GpuPipelineOptions
  waves_per_eu : Int
  deriving DecidableEq, Repr

/-- `get_pipeline_config`: builds the extra attribute fragment by the two
conditional appends of the source. -/
def get_pipeline_config (configuration : Configuration) : String :=
  let extra_config : String := ""
  let extra_config :=
    if ¬ configuration.gpu_pipeline_options.all_default then
      extra_config ++ ", gpu_pipeline_options = " ++ configuration.gpu_pipeline_options.render
    else extra_config
  let extra_config :=
    if configuration.waves_per_eu ≠ 2 then
      extra_config ++ ", llvm_func_attrs = \x7b\"amdgpu-waves-per-eu\" = \""
        ++ toString configuration.waves_per_eu ++ "\"\x7d"
    else extra_config
  extra_config

/-- `ConvDimInfo` dataclass. -/
structure ConvDimInfo where
  n : Int
  oh : Int
  ow : Int
  oc : Int
  fh : Int
  fw : Int
  ic : Int
  deriving DecidableEq, Repr

/-- `ConvDimInfo.from_rhs_res`: unpacks both shapes into exactly four
components (a Python `ValueError` on any other length is modelled by
`none`), ignoring the fourth rhs dimension. -/
def ConvDimInfo.from_rhs_res (rhs_shaped_type res_shaped_type : ShapedType) :
    Option ConvDimInfo :=
  match res_shaped_type.shape, rhs_shaped_type.shape with
  | [n, oh, ow, oc], [fh, fw, ic, _] =>
      some { n := n, oh := oh, ow := ow, oc := oc, fh := fh, fw := fw, ic := ic }
  | _, _ => none

/-- `ConvDimInfo.from_problem_size`. -/
def ConvDimInfo.from_problem_size (problem_size : ProblemSize) : Option ConvDimInfo :=
  ConvDimInfo.from_rhs_res problem_size.rhs_type problem_size.res_type

/-! Spec-side reformulations, to be compared with the embedded code. -/

/-- Spec-side clause list for `GpuPipelineOptions.__str__`: one clause per
set field, in the fixed field order. -/
def specOptionClauses (p : GpuPipelineOptions) : List String :=
  (p.prefetch_shared_memory.map
      (fun b => "prefetch_shared_memory = " ++ pyBoolLower b)).toList
    ++ (p.no_reduce_shared_memory_bank_conflicts.map
      (fun b => "no_reduce_shared_memory_bank_conflicts = " ++ pyBoolLower b)).toList
    ++ (p.reorder_workgroups_strategy.map
      (fun s => "reorder_workgroups_strategy = " ++ s.render)).toList

/-- Concrete non-batch-matmul problem: an `mmt` with f16 operands and an
f32 result. -/
def psMmtExample : ProblemSize :=
  { matmul_size := { M := 32, N := 32, K := 32 },
    lhs_type := { shape := [32, 32], element_type := .f16 },
    rhs_type := { shape := [32, 32], element_type := .f16 },
    res_type := { shape := [32, 32], element_type := .f32 },
    dispatch_kind := .mmt }

/-- Concrete batch-matmul problem whose operands are f32, matching no
intrinsic input type. -/
def psBatchMatmulExample : ProblemSize :=
  { matmul_size := { M := 16, N := 16, K := 16, B := 4 },
    lhs_type := { shape := [4, 16, 16], element_type := .f32 },
    rhs_type := { shape := [4, 16, 16], element_type := .f32 },
    res_type := { shape := [4, 16, 16], element_type := .f32 },
    dispatch_kind := .batch_matmul }

/-- Concrete configuration with default pipeline options and the default
`waves_per_eu` of 2. -/
def configDefaultExample : Configuration :=
  { subgroup_size := 64,
    workgroup_size := [128, 2, 1],
    intrinsic := MfmaIntrinsic.mfma_f32_16x16x16_f16,
    tile_sizes := [8, 8, 8],
    subgroup_m_count := 1,
    subgroup_n_count := 4,
    gpu_pipeline_options := {},
    waves_per_eu := 2 }

/-! Claim theorems. -/

/-- `is_compatible` in one decidable formula: the output type must match
the result element type, and unless the dispatch is `batch_matmul` the
input type must match both operand element types. -/
theorem is_compatible_eq_decide (ps : ProblemSize) (i : MfmaIntrinsic) :
    is_compatible ps i = decide (ps.res_type.element_type = i.output_type
      ∧ (ps.dispatch_kind = DispatchKind.batch_matmul
        ∨ (ps.lhs_type.element_type = i.input_type
            ∧ ps.rhs_type.element_type = i.input_type))) := by
  unfold is_compatible
  split_ifs <;> simp_all

/-- C1: for every `ProblemSize` whose dispatch kind is not `batch_matmul`,
`get_compatible_mfma_intrinsics` returns exactly the sublist of the fixed
catalog `MfmaIntrinsic.all` (declaration order preserved) of intrinsics
whose output type equals the result element type and whose input type
equals both operand element types. -/
theorem get_compatible_non_batch_matmul_spec (ps : ProblemSize)
    (h : ps.dispatch_kind ≠ DispatchKind.batch_matmul) :
    get_compatible_mfma_intrinsics ps =
      MfmaIntrinsic.all.filter (fun i =>
        decide (i.output_type = ps.res_type.element_type
          ∧ i.input_type = ps.lhs_type.element_type
          ∧ i.input_type = ps.rhs_type.element_type))
    ∧ (get_compatible_mfma_intrinsics ps).Sublist MfmaIntrinsic.all := by
  constructor
  · unfold get_compatible_mfma_intrinsics
    apply List.filter_congr
    intro i _
    rw [is_compatible_eq_decide, decide_eq_decide]
    constructor
    · rintro ⟨hres, hrest⟩
      rcases hrest with hbm | ⟨hl, hr⟩
      · exact absurd hbm h
      · exact ⟨hres.symm, hl.symm, hr.symm⟩
    · rintro ⟨hres, hl, hr⟩
      exact ⟨hres.symm, Or.inr ⟨hl.symm, hr.symm⟩⟩
  · exact List.filter_sublist _

/-- Witness for C1 at a concrete `mmt` problem. -/
theorem get_compatible_non_batch_matmul_spec_witness :
    get_compatible_mfma_intrinsics psMmtExample =
      MfmaIntrinsic.all.filter (fun i =>
        decide (i.output_type = psMmtExample.res_type.element_type
          ∧ i.input_type = psMmtExample.lhs_type.element_type
          ∧ i.input_type = psMmtExample.rhs_type.element_type))
    ∧ (get_compatible_mfma_intrinsics psMmtExample).Sublist MfmaIntrinsic.all :=
  get_compatible_non_batch_matmul_spec psMmtExample (by decide)

/-- C2: for every `ProblemSize` whose dispatch kind is `batch_matmul`, an
intrinsic is selected iff its output type equals the result element type;
the operand element types are not consulted. -/
theorem get_compatible_batch_matmul_spec (ps : ProblemSize)
    (h : ps.dispatch_kind = DispatchKind.batch_matmul) :
    get_compatible_mfma_intrinsics ps =
      MfmaIntrinsic.all.filter (fun i =>
        decide (i.output_type = ps.res_type.element_type))
    ∧ ∀ i : MfmaIntrinsic,
        i ∈ get_compatible_mfma_intrinsics ps ↔
          (i ∈ MfmaIntrinsic.all ∧ i.output_type = ps.res_type.element_type) := by
  have hf : get_compatible_mfma_intrinsics ps =
      MfmaIntrinsic.all.filter (fun i =>
        decide (i.output_type = ps.res_type.element_type)) := by
    unfold get_compatible_mfma_intrinsics
    apply List.filter_congr
    intro i _
    rw [is_compatible_eq_decide, decide_eq_decide]
    constructor
    · rintro ⟨hres, _⟩
      exact hres.symm
    · intro hres
      exact ⟨hres.symm, Or.inl h⟩
  refine ⟨hf, fun i => ?_⟩
  rw [hf]
  simp [List.mem_filter]

/-- Witness for C2 at a concrete batch-matmul problem whose f32 operands
match no intrinsic input type, yet both f32-output intrinsics are kept. -/
theorem get_compatible_batch_matmul_spec_witness :
    get_compatible_mfma_intrinsics psBatchMatmulExample =
      MfmaIntrinsic.all.filter (fun i =>
        decide (i.output_type = psBatchMatmulExample.res_type.element_type))
    ∧ ∀ i : MfmaIntrinsic,
        i ∈ get_compatible_mfma_intrinsics psBatchMatmulExample ↔
          (i ∈ MfmaIntrinsic.all
            ∧ i.output_type = psBatchMatmulExample.res_type.element_type) :=
  get_compatible_batch_matmul_spec psBatchMatmulExample (by decide)

/-- C3: `all_default` holds iff all three optional fields are `none`, and
an all-default instance renders as `#iree_gpu.pipeline_options<>`. -/
theorem all_default_iff_and_empty_render :
    (∀ p : GpuPipelineOptions,
        p.all_default = true ↔
          (p.prefetch_shared_memory = none
            ∧ p.no_reduce_shared_memory_bank_conflicts = none
            ∧ p.reorder_workgroups_strategy = none))
    ∧ ∀ p : GpuPipelineOptions, p.all_default = true →
        p.render = "#iree_gpu.pipeline_options<>" := by
  constructor
  · intro p
    obtain ⟨a, b, c⟩ := p
    cases a <;> cases b <;> cases c <;> simp [GpuPipelineOptions.all_default]
  · intro p hp
    obtain ⟨a, b, c⟩ := p
    cases a <;> cases b <;> cases c <;>
      first
        | rfl
        | simp [GpuPipelineOptions.all_default] at hp

/-- Witness for C3: the default instance is all-default and renders as
the empty options marker. -/
theorem all_default_iff_and_empty_render_witness :
    GpuPipelineOptions.render {} = "#iree_gpu.pipeline_options<>" :=
  all_default_iff_and_empty_render.2 {} rfl

/-- C4: `GpuPipelineOptions.__str__` emits one clause per set field, in
the fixed field order, joined by a comma-space inside the
`#iree_gpu.pipeline_options<...>` marker. -/
theorem gpu_pipeline_options_render_clauses (p : GpuPipelineOptions) :
    p.render = "#iree_gpu.pipeline_options<"
      ++ String.intercalate ", " (specOptionClauses p) ++ ">" := by
  obtain ⟨a, b, c⟩ := p
  cases a <;> cases b <;> cases c <;> rfl

/-- C5: `get_pipeline_config` is the concatenation of the pipeline-options
fragment (present iff the options are not all-default) and the
waves-per-eu fragment (present iff `waves_per_eu` is not 2), in that
order; both defaulted gives the empty string. -/
theorem get_pipeline_config_spec (c : Configuration) :
    get_pipeline_config c =
      (if c.gpu_pipeline_options.all_default then ""
        else ", gpu_pipeline_options = " ++ c.gpu_pipeline_options.render)
      ++ (if c.waves_per_eu = 2 then ""
        else ", llvm_func_attrs = \x7b\"amdgpu-waves-per-eu\" = \""
          ++ toString c.waves_per_eu ++ "\"\x7d")
    ∧ (c.waves_per_eu = 2 → c.gpu_pipeline_options.all_default = true →
        get_pipeline_config c = "") := by
  constructor
  · by_cases h1 : c.gpu_pipeline_options.all_default <;>
      by_cases h2 : c.waves_per_eu = 2 <;>
        simp [get_pipeline_config, h1, h2, String.empty_append,
          String.append_empty, String.append_assoc]
  · intro h2 h1
    simp [get_pipeline_config, h1, h2]

/-- Witness for C5: a configuration with default pipeline options and
`waves_per_eu = 2` yields the empty fragment. -/
theorem get_pipeline_config_spec_witness :
    get_pipeline_config configDefaultExample = "" :=
  (get_pipeline_config_spec configDefaultExample).2 rfl rfl

/-- C6: `MfmaIntrinsic.__str__` renders as
`MFMA_<OUT>_<m>x<n>x<k>_<IN>` with upper-cased type spellings, and the
f32/f16 16x16x16 intrinsic renders as `MFMA_F32_16x16x16_F16`. -/
theorem mfma_render_spec :
    (∀ i : MfmaIntrinsic,
        i.render = "MFMA_" ++ pyUpper i.output_type.render ++ "_"
          ++ toString i.m ++ "x" ++ toString i.n ++ "x" ++ toString i.k
          ++ "_" ++ pyUpper i.input_type.render)
    ∧ MfmaIntrinsic.render MfmaIntrinsic.mfma_f32_16x16x16_f16
        = "MFMA_F32_16x16x16_F16" :=
  ⟨fun _ => rfl, rfl⟩

/-- C7: `ShapedType.__str__` renders the dims in order, separated by `x`,
with `-1` rendered `?`, followed by `x` and the element type; the concrete
shape `[2, -1, 4]` over i32 renders as `2x?x4xi32`. -/
theorem shaped_type_render_spec :
    (∀ st : ShapedType,
        st.render = String.intercalate "x"
            (st.shape.map (fun dim => if dim = -1 then "?" else toString dim))
          ++ "x" ++ st.element_type.render)
    ∧ ShapedType.render { shape := [2, -1, 4], element_type := .i32 }
        = "2x?x4xi32" := by
  have hfun : dim_to_str = fun dim : Int => if dim = -1 then "?" else toString dim := by
    funext d
    by_cases hd : d = -1 <;> simp [dim_to_str, hd]
  constructor
  · intro st
    unfold ShapedType.render
    rw [hfun]
  · rfl

/-- C8: constructing `CommonTypes` (and hence `TunerContext`) fails with
an assertion error exactly when the compiler context is absent, and
succeeds for any present context. -/
theorem common_types_requires_context :
    (∃ e, CommonTypes.make none = Except.error e)
    ∧ (∀ lg : Logger, ∃ e, TunerContext.make none lg = Except.error e)
    ∧ (∀ c : IRContext, ∃ t, CommonTypes.make (some c) = Except.ok t)
    ∧ (∀ c : IRContext, ∀ lg : Logger,
        ∃ t, TunerContext.make (some c) lg = Except.ok t) :=
  ⟨⟨"AssertionError", rfl⟩,
    fun _ => ⟨"AssertionError", rfl⟩,
    fun _ => ⟨_, rfl⟩,
    fun _ _ => ⟨_, rfl⟩⟩

/-- C9: `ConvDimInfo.from_rhs_res` is defined exactly when both shapes
have exactly four dimensions; it then takes the result dims as
`n, oh, ow, oc` and the first three rhs dims as `fh, fw, ic`, ignoring the
fourth rhs dim; `from_problem_size` delegates with the problem's rhs and
result types. -/
theorem conv_dim_info_from_rhs_res_spec :
    (∀ rhs res : ShapedType,
        (ConvDimInfo.from_rhs_res rhs res).isSome = true ↔
          (res.shape.length = 4 ∧ rhs.shape.length = 4))
    ∧ (∀ rhs res : ShapedType, ∀ n oh ow oc fh fw ic d : Int,
        res.shape = [n, oh, ow, oc] → rhs.shape = [fh, fw, ic, d] →
          ConvDimInfo.from_rhs_res rhs res =
            some { n := n, oh := oh, ow := ow, oc := oc,
                   fh := fh, fw := fw, ic := ic })
    ∧ (∀ ps : ProblemSize,
        ConvDimInfo.from_problem_size ps =
          ConvDimInfo.from_rhs_res ps.rhs_type ps.res_type) := by
  refine ⟨?_, ?_, fun ps => rfl⟩
  · intro rhs res
    obtain ⟨s1, t1⟩ := rhs
    obtain ⟨s2, t2⟩ := res
    rcases s2 with _ | ⟨a, _ | ⟨b, _ | ⟨c, _ | ⟨d, _ | ⟨x, xs⟩⟩⟩⟩⟩ <;>
      rcases s1 with _ | ⟨e, _ | ⟨f, _ | ⟨g, _ | ⟨k, _ | ⟨y, ys⟩⟩⟩⟩⟩ <;>
        simp [ConvDimInfo.from_rhs_res]
  · intro rhs res n oh ow oc fh fw ic d h1 h2
    simp [ConvDimInfo.from_rhs_res, h1, h2]

/-- Witness for C9 at concrete four-dimensional shapes. -/
theorem conv_dim_info_from_rhs_res_spec_witness :
    ConvDimInfo.from_rhs_res
        { shape := [3, 3, 8, 16], element_type := .f16 }
        { shape := [2, 28, 28, 16], element_type := .f32 } =
      some { n := 2, oh := 28, ow := 28, oc := 16, fh := 3, fw := 3, ic := 8 } :=
  conv_dim_info_from_rhs_res_spec.2.1 _ _ 2 28 28 16 3 3 8 16 rfl rfl

/-- C10: the fragment returned by `get_pipeline_config` is either empty or
begins with a comma and a space, so it is only ever appended after an
existing attribute list. -/
theorem get_pipeline_config_trailing_fragment (c : Configuration) :
    get_pipeline_config c = ""
      ∨ ∃ s, get_pipeline_config c = ", " ++ s := by
  by_cases h1 : c.gpu_pipeline_options.all_default <;>
    by_cases h2 : c.waves_per_eu = 2
  · left
    simp [get_pipeline_config, h1, h2]
  · right
    refine ⟨"llvm_func_attrs = \x7b\"amdgpu-waves-per-eu\" = \""
      ++ (toString c.waves_per_eu ++ "\"\x7d"), ?_⟩
    have hstep : get_pipeline_config c =
        ", llvm_func_attrs = \x7b\"amdgpu-waves-per-eu\" = \""
          ++ toString c.waves_per_eu ++ "\"\x7d" := by
      simp [get_pipeline_config, h1, h2, String.empty_append]
    rw [hstep, String.append_assoc,
      show (", llvm_func_attrs = \x7b\"amdgpu-waves-per-eu\" = \"" : String)
        = ", " ++ "llvm_func_attrs = \x7b\"amdgpu-waves-per-eu\" = \"" from rfl,
      String.append_assoc]
  · right
    refine ⟨"gpu_pipeline_options = " ++ c.gpu_pipeline_options.render, ?_⟩
    have hstep : get_pipeline_config c =
        ", gpu_pipeline_options = " ++ c.gpu_pipeline_options.render := by
      simp [get_pipeline_config, h1, h2, String.empty_append]
    rw [hstep,
      show (", gpu_pipeline_options = " : String)
        = ", " ++ "gpu_pipeline_options = " from rfl,
      String.append_assoc]
  · right
    refine ⟨"gpu_pipeline_options = " ++ (c.gpu_pipeline_options.render
      ++ (", llvm_func_attrs = \x7b\"amdgpu-waves-per-eu\" = \""
        ++ (toString c.waves_per_eu ++ "\"\x7d"))), ?_⟩
    have hstep : get_pipeline_config c =
        ", gpu_pipeline_options = " ++ c.gpu_pipeline_options.render
          ++ ", llvm_func_attrs = \x7b\"amdgpu-waves-per-eu\" = \""
          ++ toString c.waves_per_eu ++ "\"\x7d" := by
      simp [get_pipeline_config, h1, h2, String.empty_append]
    rw [hstep,
      show (", gpu_pipeline_options = " : String)
        = ", " ++ "gpu_pipeline_options = " from rfl]
    simp only [String.append_assoc]

end Tuner
